import Mathlib

/-!
Verification of the weighted variance swap pricing and P&L attribution
library (`volatility_arbitrage/pricing_model/weighted_variance_swap.py`).

The source operates elementwise on equal-length float arrays; we embed the
elementwise semantics over the real numbers, and additionally model the one
genuinely array-level operation (`VarianceSwap.vanna_pnl`, which returns
`np.zeros_like(imp_var_0)`) on lists of reals.
-/

noncomputable section

/-- Modelled from the spec: `HestonParams` is defined in
`volatility_arbitrage/pricing_model/heston_model.py`, which is not part of
the excerpt; the spec describes it as a provider of the named scalars
`{kappa, mean_of_var, vol_of_var}` for a mean-reverting variance process. -/
structure HestonParams where
  kappa : ℝ
  mean_of_var : ℝ
  vol_of_var : ℝ

/-- Modelled from the spec: `Correlation` is defined in
`volatility_arbitrage/pricing_model/heston_model.py`, not in the excerpt;
the spec describes it as a provider of the named correlation scalar
`rho_spot_imp` (only field the core reads). -/
structure Correlation where
  rho_spot_imp : ℝ

/-- The abstract class `WeightedVarianceSwap`: `__init__` stores the two
parameter sets and the correlation; the four abstract operations
(`price`, `var_vega`, `gamma_pnl`, `vanna_pnl`) are supplied by each
concrete weighting scheme and are modelled as function-valued fields.
Argument order follows the keyword order of the Python signatures. -/
structure WeightedVarianceSwap where
  imp_var_params : HestonParams
  real_var_params : HestonParams
  corr : Correlation
  price : ℝ → ℝ → ℝ
  var_vega : ℝ → ℝ
  gamma_pnl : ℝ → ℝ → ℝ
  vanna_pnl : ℝ → ℝ → ℝ → ℝ → ℝ → ℝ → ℝ

namespace WeightedVarianceSwap

/-- `forward_var_vega(tau_front, tau_back) = var_vega(tau_back) - var_vega(tau_front)`. -/
def forward_var_vega (s : WeightedVarianceSwap) (tau_front tau_back : ℝ) : ℝ :=
  s.var_vega tau_back - s.var_vega tau_front

/-- `var_skew_stikiness_ratio` (name as in source):
`rho_spot_imp * vol_of_var * sqrt(imp_var) / sqrt(real_var)`. -/
def var_skew_stikiness_ratio (s : WeightedVarianceSwap) (real_var imp_var : ℝ) : ℝ :=
  s.corr.rho_spot_imp * s.imp_var_params.vol_of_var * Real.sqrt imp_var / Real.sqrt real_var

/-- `min_var_delta`: forward variance vega over the bucket
`[tau_0 - tau_t, tau_0]` times the skew-stickiness ratio. -/
def min_var_delta (s : WeightedVarianceSwap) (real_var imp_var tau_0 tau_t : ℝ) : ℝ :=
  s.forward_var_vega (tau_0 - tau_t) tau_0 * s.var_skew_stikiness_ratio real_var imp_var

/-- `theta_pnl(imp_var_0, tau_0, tau_t) = -price(imp_var_0, tau_t - tau_0)`. -/
def theta_pnl (s : WeightedVarianceSwap) (imp_var_0 tau_0 tau_t : ℝ) : ℝ :=
  -(s.price imp_var_0 (tau_t - tau_0))

/-- `var_vega_pnl = price_t - price_0 - theta_pnl`. -/
def var_vega_pnl (s : WeightedVarianceSwap) (imp_var_0 tau_0 imp_var_t tau_t : ℝ) : ℝ :=
  s.price imp_var_t tau_t - s.price imp_var_0 tau_0 - s.theta_pnl imp_var_0 tau_0 tau_t

/-- `vega_hedge_pnl = -min_var_delta(real_var_0, imp_var_0, tau_0, tau_t) * (f_t - f_0)`. -/
def vega_hedge_pnl (s : WeightedVarianceSwap) (f_0 f_t real_var_0 imp_var_0 tau_0 tau_t : ℝ) : ℝ :=
  -(s.min_var_delta real_var_0 imp_var_0 tau_0 tau_t) * (f_t - f_0)

/-- `total_pnl`: `price_t - price_0 + vanna_pnl + gamma_pnl + vega_hedge_pnl`,
with the sub-terms evaluated as in the source body. -/
def total_pnl (s : WeightedVarianceSwap)
    (f_0 f_t real_var_0 imp_var_0 tau_0 imp_var_t tau_t : ℝ) : ℝ :=
  s.price imp_var_t tau_t - s.price imp_var_0 tau_0
    + s.vanna_pnl imp_var_0 tau_0 imp_var_t tau_t f_0 f_t
    + s.gamma_pnl f_0 f_t
    + s.vega_hedge_pnl f_0 f_t real_var_0 imp_var_0 tau_0 tau_t

end WeightedVarianceSwap

/-- The concrete `VarianceSwap` (standard variance swap / log contract):
supplies the four abstract operations with the closed forms of the source.
Elementwise semantics of the numpy expressions, over ℝ. -/
def varianceSwap (imp real_p : HestonParams) (corr : Correlation) : WeightedVarianceSwap where
  imp_var_params := imp
  real_var_params := real_p
  corr := corr
  price := fun imp_var tau =>
    imp.mean_of_var * tau
      + (imp_var - imp.mean_of_var) * (1 - Real.exp (-imp.kappa * tau)) / imp.kappa
  var_vega := fun tau => (1 - Real.exp (-imp.kappa * tau)) / imp.kappa
  vanna_pnl := fun _ _ _ _ _ _ => 0
  gamma_pnl := fun f_0 f_t => 2 * (f_t / f_0 - 1 - Real.log (f_t / f_0))

/-- `np.zeros_like(xs)`: an array of zeros of the same length as `xs`. -/
def zeros_like (xs : List ℝ) : List ℝ :=
  xs.map fun _ => 0

/-- Array-level `VarianceSwap.vanna_pnl`: the body is
`np.zeros_like(imp_var_0)`, ignoring all the other arguments. -/
def vanna_pnl_vec (imp_var_0 tau_0 imp_var_t tau_t f_0 f_t : List ℝ) : List ℝ :=
  zeros_like imp_var_0

/-- Claim C1: for every concrete weighted variance swap instrument and all
inputs, `total_pnl` equals exactly
`price(imp_var_t, tau_t) - price(imp_var_0, tau_0) + vanna_pnl + gamma_pnl + vega_hedge_pnl`. -/
theorem total_pnl_identity (s : WeightedVarianceSwap)
    (f_0 f_t real_var_0 imp_var_0 tau_0 imp_var_t tau_t : ℝ) :
    s.total_pnl f_0 f_t real_var_0 imp_var_0 tau_0 imp_var_t tau_t =
      s.price imp_var_t tau_t - s.price imp_var_0 tau_0
        + s.vanna_pnl imp_var_0 tau_0 imp_var_t tau_t f_0 f_t
        + s.gamma_pnl f_0 f_t
        + s.vega_hedge_pnl f_0 f_t real_var_0 imp_var_0 tau_0 tau_t := rfl

/-- Claim C2: for every concrete instrument and all inputs, the total P&L
decomposes into the five named risk components: `total_pnl` equals
`theta_pnl + var_vega_pnl + vanna_pnl + gamma_pnl + vega_hedge_pnl`, where
`theta_pnl(imp_var_0, tau_0, tau_t) = -price(imp_var_0, tau_t - tau_0)` and
`var_vega_pnl = price_t - price_0 - theta_pnl`. -/
theorem total_pnl_decomposition (s : WeightedVarianceSwap)
    (f_0 f_t real_var_0 imp_var_0 tau_0 imp_var_t tau_t : ℝ) :
    s.theta_pnl imp_var_0 tau_0 tau_t = -(s.price imp_var_0 (tau_t - tau_0)) ∧
    s.var_vega_pnl imp_var_0 tau_0 imp_var_t tau_t =
      s.price imp_var_t tau_t - s.price imp_var_0 tau_0
        - s.theta_pnl imp_var_0 tau_0 tau_t ∧
    s.total_pnl f_0 f_t real_var_0 imp_var_0 tau_0 imp_var_t tau_t =
      s.theta_pnl imp_var_0 tau_0 tau_t
        + s.var_vega_pnl imp_var_0 tau_0 imp_var_t tau_t
        + s.vanna_pnl imp_var_0 tau_0 imp_var_t tau_t f_0 f_t
        + s.gamma_pnl f_0 f_t
        + s.vega_hedge_pnl f_0 f_t real_var_0 imp_var_0 tau_0 tau_t := by
  refine ⟨rfl, rfl, ?_⟩
  simp only [WeightedVarianceSwap.total_pnl, WeightedVarianceSwap.var_vega_pnl]
  ring

/-- A concrete parameter set (kappa = 2, mean_of_var = 0.04, vol_of_var = 0.3)
used to instantiate theorems at concrete inputs. -/
def testHestonParams : HestonParams :=
  ⟨2, 0.04, 0.3⟩

/-- A concrete correlation used to instantiate theorems at concrete inputs. -/
def testCorrelation : Correlation :=
  ⟨-0.5⟩

/-- Claim C3: for the concrete `VarianceSwap`, when the forward, implied
variance and time to expiry are unchanged (with `f_0 = f_t > 0`),
`gamma_pnl`, `vega_hedge_pnl` and `total_pnl` are all zero. -/
theorem zero_change_idempotence (imp rp : HestonParams) (c : Correlation)
    (f real_var_0 imp_var tau : ℝ) (hf : 0 < f) :
    (varianceSwap imp rp c).gamma_pnl f f = 0 ∧
    (varianceSwap imp rp c).vega_hedge_pnl f f real_var_0 imp_var tau tau = 0 ∧
    (varianceSwap imp rp c).total_pnl f f real_var_0 imp_var tau imp_var tau = 0 := by
  have hf0 : f ≠ 0 := ne_of_gt hf
  have hg : (varianceSwap imp rp c).gamma_pnl f f = 0 := by
    show 2 * (f / f - 1 - Real.log (f / f)) = 0
    rw [div_self hf0, Real.log_one]
    ring
  have hv : (varianceSwap imp rp c).vega_hedge_pnl f f real_var_0 imp_var tau tau = 0 := by
    simp only [WeightedVarianceSwap.vega_hedge_pnl, sub_self, mul_zero]
  refine ⟨hg, hv, ?_⟩
  simp only [WeightedVarianceSwap.total_pnl] at *
  rw [hg, hv]
  show (varianceSwap imp rp c).price imp_var tau - (varianceSwap imp rp c).price imp_var tau
    + 0 + 0 + 0 = 0
  ring

theorem zero_change_idempotence_witness :
    (0 : ℝ) < 1 ∧
    ((varianceSwap testHestonParams testHestonParams testCorrelation).gamma_pnl 1 1 = 0 ∧
     (varianceSwap testHestonParams testHestonParams testCorrelation).vega_hedge_pnl
       1 1 0.04 0.09 1 1 = 0 ∧
     (varianceSwap testHestonParams testHestonParams testCorrelation).total_pnl
       1 1 0.04 0.09 1 0.09 1 = 0) :=
  ⟨by norm_num,
   zero_change_idempotence testHestonParams testHestonParams testCorrelation
     1 0.04 0.09 1 (by norm_num)⟩

/-- Claim C4: for the concrete `VarianceSwap`,
`gamma_pnl(f_0, f_t) = 2 * (f_t/f_0 - 1 - log(f_t/f_0))`; for `f_0, f_t > 0`
it is exactly zero when `f_t = f_0` and strictly positive when `f_t ≠ f_0`. -/
theorem gamma_pnl_convexity (imp rp : HestonParams) (c : Correlation)
    (f_0 f_t : ℝ) (h0 : 0 < f_0) (ht : 0 < f_t) :
    (varianceSwap imp rp c).gamma_pnl f_0 f_t =
      2 * (f_t / f_0 - 1 - Real.log (f_t / f_0)) ∧
    (f_t = f_0 → (varianceSwap imp rp c).gamma_pnl f_0 f_t = 0) ∧
    (f_t ≠ f_0 → 0 < (varianceSwap imp rp c).gamma_pnl f_0 f_t) := by
  refine ⟨rfl, ?_, ?_⟩
  · intro h
    subst h
    show 2 * (f_t / f_t - 1 - Real.log (f_t / f_t)) = 0
    rw [div_self (ne_of_gt ht), Real.log_one]
    ring
  · intro hne
    have hr : 0 < f_t / f_0 := div_pos ht h0
    have hr1 : f_t / f_0 ≠ 1 := by
      intro h1
      exact hne ((div_eq_one_iff_eq (ne_of_gt h0)).mp h1)
    have hlog : Real.log (f_t / f_0) < f_t / f_0 - 1 :=
      Real.log_lt_sub_one_of_pos hr hr1
    show 0 < 2 * (f_t / f_0 - 1 - Real.log (f_t / f_0))
    linarith

theorem gamma_pnl_convexity_witness :
    (0 : ℝ) < 1 ∧ (0 : ℝ) < 2 ∧ (2 : ℝ) ≠ 1 ∧
    0 < (varianceSwap testHestonParams testHestonParams testCorrelation).gamma_pnl 1 2 :=
  ⟨by norm_num, by norm_num, by norm_num,
   (gamma_pnl_convexity testHestonParams testHestonParams testCorrelation 1 2
     (by norm_num) (by norm_num)).2.2 (by norm_num)⟩

/-- Claim C5: the concrete `VarianceSwap` vanna P&L returns an all-zero array
of the same length as `imp_var_0`, for every input (length 0 included) and
regardless of the other arguments. -/
theorem vanna_pnl_zero_vec (imp_var_0 tau_0 imp_var_t tau_t f_0 f_t : List ℝ) :
    (vanna_pnl_vec imp_var_0 tau_0 imp_var_t tau_t f_0 f_t).length = imp_var_0.length ∧
    ∀ x ∈ vanna_pnl_vec imp_var_0 tau_0 imp_var_t tau_t f_0 f_t, x = 0 := by
  refine ⟨by simp [vanna_pnl_vec, zeros_like], ?_⟩
  intro x hx
  obtain ⟨a, _, ha⟩ := List.mem_map.mp hx
  exact ha.symm

/-- Claim C6: the concrete `VarianceSwap` price is
`mean_of_var * tau + (imp_var - mean_of_var) * (1 - exp(-kappa*tau)) / kappa`;
with kappa = 2, mean_of_var = 0.04, tau = 1, imp_var = 0.09 it equals
`0.04 + 0.05 * (1 - exp(-2)) / 2` exactly. -/
theorem price_formula (imp rp : HestonParams) (c : Correlation) :
    (∀ imp_var tau : ℝ, (varianceSwap imp rp c).price imp_var tau =
      imp.mean_of_var * tau
        + (imp_var - imp.mean_of_var) * (1 - Real.exp (-imp.kappa * tau)) / imp.kappa) ∧
    (varianceSwap testHestonParams rp c).price 0.09 1 =
      0.04 + 0.05 * (1 - Real.exp (-2)) / 2 := by
  refine ⟨fun _ _ => rfl, ?_⟩
  show (0.04 : ℝ) * 1 + ((0.09 : ℝ) - 0.04) * (1 - Real.exp (-(2 : ℝ) * 1)) / 2 =
    0.04 + 0.05 * (1 - Real.exp (-2)) / 2
  norm_num

/-- Claim C7: for the concrete `VarianceSwap` with kappa > 0:
`var_vega(tau) = (1 - exp(-kappa*tau)) / kappa`; it is the derivative of
`price` in `imp_var` in the exact finite-difference sense; `price(v, 0) = 0`
and `var_vega(0) = 0`; `var_vega` is nondecreasing on `tau ≥ 0` and satisfies
`0 ≤ var_vega(tau) < 1/kappa` there, tending to `1/kappa` as `tau → ∞`. -/
theorem var_vega_properties (imp rp : HestonParams) (c : Correlation)
    (hk : 0 < imp.kappa) :
    (∀ tau : ℝ, (varianceSwap imp rp c).var_vega tau =
        (1 - Real.exp (-imp.kappa * tau)) / imp.kappa) ∧
    (∀ v h tau : ℝ, (varianceSwap imp rp c).price (v + h) tau
        - (varianceSwap imp rp c).price v tau
        = h * (varianceSwap imp rp c).var_vega tau) ∧
    (∀ v : ℝ, (varianceSwap imp rp c).price v 0 = 0) ∧
    (varianceSwap imp rp c).var_vega 0 = 0 ∧
    (∀ t1 t2 : ℝ, 0 ≤ t1 → t1 ≤ t2 →
        (varianceSwap imp rp c).var_vega t1 ≤ (varianceSwap imp rp c).var_vega t2) ∧
    (∀ tau : ℝ, 0 ≤ tau →
        0 ≤ (varianceSwap imp rp c).var_vega tau ∧
        (varianceSwap imp rp c).var_vega tau < 1 / imp.kappa) ∧
    Filter.Tendsto (fun tau => (varianceSwap imp rp c).var_vega tau)
      Filter.atTop (nhds (1 / imp.kappa)) := by
  have hk0 : imp.kappa ≠ 0 := ne_of_gt hk
  refine ⟨fun _ => rfl, ?_, ?_, ?_, ?_, ?_, ?_⟩
  · intro v h tau
    show imp.mean_of_var * tau
        + (v + h - imp.mean_of_var) * (1 - Real.exp (-imp.kappa * tau)) / imp.kappa
        - (imp.mean_of_var * tau
            + (v - imp.mean_of_var) * (1 - Real.exp (-imp.kappa * tau)) / imp.kappa)
      = h * ((1 - Real.exp (-imp.kappa * tau)) / imp.kappa)
    ring
  · intro v
    show imp.mean_of_var * 0
        + (v - imp.mean_of_var) * (1 - Real.exp (-imp.kappa * 0)) / imp.kappa = 0
    simp
  · show (1 - Real.exp (-imp.kappa * 0)) / imp.kappa = 0
    simp
  · intro t1 t2 _ h12
    show (1 - Real.exp (-imp.kappa * t1)) / imp.kappa
      ≤ (1 - Real.exp (-imp.kappa * t2)) / imp.kappa
    have he : Real.exp (-imp.kappa * t2) ≤ Real.exp (-imp.kappa * t1) :=
      Real.exp_le_exp.mpr (by nlinarith)
    exact (div_le_div_iff_of_pos_right hk).mpr (by linarith)
  · intro tau htau
    have he1 : Real.exp (-imp.kappa * tau) ≤ 1 := by
      have h0 : -imp.kappa * tau ≤ 0 := by nlinarith
      calc Real.exp (-imp.kappa * tau) ≤ Real.exp 0 := Real.exp_le_exp.mpr h0
        _ = 1 := Real.exp_zero
    have he2 : 0 < Real.exp (-imp.kappa * tau) := Real.exp_pos _
    constructor
    · show 0 ≤ (1 - Real.exp (-imp.kappa * tau)) / imp.kappa
      exact div_nonneg (by linarith) hk.le
    · show (1 - Real.exp (-imp.kappa * tau)) / imp.kappa < 1 / imp.kappa
      exact (div_lt_div_iff_of_pos_right hk).mpr (by linarith)
  · have h1 : Filter.Tendsto (fun tau : ℝ => imp.kappa * tau) Filter.atTop Filter.atTop :=
      Filter.Tendsto.const_mul_atTop hk Filter.tendsto_id
    have h2 : Filter.Tendsto (fun tau : ℝ => -(imp.kappa * tau)) Filter.atTop Filter.atBot :=
      Filter.tendsto_neg_atBot_iff.mpr h1
    have h3 : Filter.Tendsto (fun tau : ℝ => Real.exp (-(imp.kappa * tau)))
        Filter.atTop (nhds 0) := Real.tendsto_exp_atBot.comp h2
    have h4 : Filter.Tendsto
        (fun tau : ℝ => (1 - Real.exp (-(imp.kappa * tau))) / imp.kappa)
        Filter.atTop (nhds ((1 - 0) / imp.kappa)) :=
      (Filter.Tendsto.sub tendsto_const_nhds h3).div_const imp.kappa
    simpa [varianceSwap, neg_mul] using h4

theorem var_vega_properties_witness :
    0 < testHestonParams.kappa ∧
    (varianceSwap testHestonParams testHestonParams testCorrelation).var_vega 0 = 0 :=
  ⟨by norm_num [testHestonParams],
   (var_vega_properties testHestonParams testHestonParams testCorrelation
     (by norm_num [testHestonParams])).2.2.2.1⟩

/-- Claim C8: for every concrete instrument, `vega_hedge_pnl` equals minus
the forward variance vega over the bucket `[tau_0 - tau_t, tau_0]` times the
skew-stickiness ratio `rho_spot_imp * vol_of_var * sqrt(imp_var_0) / sqrt(real_var_0)`
times the forward move `f_t - f_0`, under `real_var_0 > 0` and `imp_var_0 > 0`. -/
theorem vega_hedge_pnl_formula (s : WeightedVarianceSwap)
    (f_0 f_t real_var_0 imp_var_0 tau_0 tau_t : ℝ)
    (hr : 0 < real_var_0) (hi : 0 < imp_var_0) :
    s.vega_hedge_pnl f_0 f_t real_var_0 imp_var_0 tau_0 tau_t =
      -(s.var_vega tau_0 - s.var_vega (tau_0 - tau_t))
        * (s.corr.rho_spot_imp * s.imp_var_params.vol_of_var
            * Real.sqrt imp_var_0 / Real.sqrt real_var_0)
        * (f_t - f_0) := by
  simp only [WeightedVarianceSwap.vega_hedge_pnl, WeightedVarianceSwap.min_var_delta,
    WeightedVarianceSwap.forward_var_vega, WeightedVarianceSwap.var_skew_stikiness_ratio]
  ring

theorem vega_hedge_pnl_formula_witness :
    (0 : ℝ) < 0.04 ∧ (0 : ℝ) < 0.09 ∧
    (varianceSwap testHestonParams testHestonParams testCorrelation).vega_hedge_pnl
        1 1.1 0.04 0.09 1 0.9 =
      -((varianceSwap testHestonParams testHestonParams testCorrelation).var_vega 1
          - (varianceSwap testHestonParams testHestonParams testCorrelation).var_vega (1 - 0.9))
        * ((varianceSwap testHestonParams testHestonParams testCorrelation).corr.rho_spot_imp
            * (varianceSwap testHestonParams testHestonParams
                testCorrelation).imp_var_params.vol_of_var
            * Real.sqrt 0.09 / Real.sqrt 0.04)
        * (1.1 - 1) :=
  ⟨by norm_num, by norm_num,
   vega_hedge_pnl_formula (varianceSwap testHestonParams testHestonParams testCorrelation)
     1 1.1 0.04 0.09 1 0.9 (by norm_num) (by norm_num)⟩

/-- Claim C9 counterexample: constructing a `VarianceSwap` with a non-positive
kappa (here kappa = -1) does not fail: it returns an instance that stores the
given kappa unchanged and whose operations evaluate normally. -/
theorem construction_no_validation_counterexample :
    (varianceSwap ⟨-1, 0.04, 0.3⟩ testHestonParams testCorrelation).imp_var_params.kappa = -1 ∧
    (varianceSwap ⟨-1, 0.04, 0.3⟩ testHestonParams testCorrelation).gamma_pnl 1 1 = 0 := by
  constructor
  · rfl
  · show (2 : ℝ) * ((1 : ℝ) / 1 - 1 - Real.log (1 / 1)) = 0
    norm_num

/-- Claim C9 amended: construction performs no validation: for any kappa,
including non-positive values, the constructor returns a usable instance
storing the given parameter sets and correlation unchanged. -/
theorem construction_stores_params (k m v : ℝ) (rp : HestonParams) (c : Correlation)
    (hk : k ≤ 0) :
    (varianceSwap ⟨k, m, v⟩ rp c).imp_var_params = ⟨k, m, v⟩ ∧
    (varianceSwap ⟨k, m, v⟩ rp c).real_var_params = rp ∧
    (varianceSwap ⟨k, m, v⟩ rp c).corr = c :=
  ⟨rfl, rfl, rfl⟩

theorem construction_stores_params_witness :
    (-1 : ℝ) ≤ 0 ∧
    (varianceSwap ⟨-1, 0.04, 0.3⟩ testHestonParams testCorrelation).imp_var_params =
      ⟨-1, 0.04, 0.3⟩ :=
  ⟨by norm_num,
   (construction_stores_params (-1) 0.04 0.3 testHestonParams testCorrelation (by norm_num)).1⟩

/-- Claim C10: every query operation of the concrete `VarianceSwap` is
independent of the realized-variance parameter set: two instruments built
with the same implied-variance parameters and correlation but arbitrary
different realized-variance parameters agree on every operation. -/
theorem real_var_params_independence (imp rp1 rp2 : HestonParams) (c : Correlation)
    (imp_var tau tau_front tau_back real_var tau_0 tau_t imp_var_0 imp_var_t
      f_0 f_t real_var_0 : ℝ) :
    (varianceSwap imp rp1 c).price imp_var tau =
      (varianceSwap imp rp2 c).price imp_var tau ∧
    (varianceSwap imp rp1 c).var_vega tau = (varianceSwap imp rp2 c).var_vega tau ∧
    (varianceSwap imp rp1 c).forward_var_vega tau_front tau_back =
      (varianceSwap imp rp2 c).forward_var_vega tau_front tau_back ∧
    (varianceSwap imp rp1 c).var_skew_stikiness_ratio real_var imp_var =
      (varianceSwap imp rp2 c).var_skew_stikiness_ratio real_var imp_var ∧
    (varianceSwap imp rp1 c).min_var_delta real_var imp_var tau_0 tau_t =
      (varianceSwap imp rp2 c).min_var_delta real_var imp_var tau_0 tau_t ∧
    (varianceSwap imp rp1 c).theta_pnl imp_var_0 tau_0 tau_t =
      (varianceSwap imp rp2 c).theta_pnl imp_var_0 tau_0 tau_t ∧
    (varianceSwap imp rp1 c).var_vega_pnl imp_var_0 tau_0 imp_var_t tau_t =
      (varianceSwap imp rp2 c).var_vega_pnl imp_var_0 tau_0 imp_var_t tau_t ∧
    (varianceSwap imp rp1 c).vanna_pnl imp_var_0 tau_0 imp_var_t tau_t f_0 f_t =
      (varianceSwap imp rp2 c).vanna_pnl imp_var_0 tau_0 imp_var_t tau_t f_0 f_t ∧
    (varianceSwap imp rp1 c).gamma_pnl f_0 f_t =
      (varianceSwap imp rp2 c).gamma_pnl f_0 f_t ∧
    (varianceSwap imp rp1 c).vega_hedge_pnl f_0 f_t real_var_0 imp_var_0 tau_0 tau_t =
      (varianceSwap imp rp2 c).vega_hedge_pnl f_0 f_t real_var_0 imp_var_0 tau_0 tau_t ∧
    (varianceSwap imp rp1 c).total_pnl f_0 f_t real_var_0 imp_var_0 tau_0 imp_var_t tau_t =
      (varianceSwap imp rp2 c).total_pnl f_0 f_t real_var_0 imp_var_0 tau_0 imp_var_t tau_t :=
  ⟨rfl, rfl, rfl, rfl, rfl, rfl, rfl, rfl, rfl, rfl, rfl⟩

end
